import Mathlib

/-
Verification development for the supply-chain agent repository.

Shallow embedding of the two core components:
  * `supply_chain/tools/demand_forecast.py`  (Forecast Builder)
  * `supply_chain/tools/analyse_weather_toolkit.py`  (Pipeline/Context Engine)

External effects (BigQuery execution, HTTP calls to geocoding and weather
APIs, the statsmodels Holt-Winters fit, matplotlib rendering, the genai
client) are modelled as explicit parameters/environments; everything the
Python code itself computes is translated directly.  Machine floats are
modelled as rationals; pandas timestamps are modelled by an abstract
`PyTimestamp` carrying the observables the code actually reads
(a linear order key `epoch` in seconds, plus `month`/`day`/`hour` fields).
-/

set_option autoImplicit false

namespace SupplyChain

/-- Python exceptions that the modelled code can raise or catch. -/
inductive PyExc where
  | valueError (msg : String)
  | connectionError (msg : String)
  | keyError (msg : String)
  deriving DecidableEq, Repr

/-- Outcome of running a Python function: either a returned value or an
exception escaping it. -/
inductive PyResult (α : Type) where
  | ret (a : α)
  | raise (e : PyExc)
  deriving DecidableEq, Repr

/-! ## Forecast Builder — `demand_forecast.py` -/

/-- One row of the executed BigQuery aggregate
(`SELECT date, SUM(consumption_mega_units) ... GROUP BY date`).
Dates are modelled as day numbers (ℤ). -/
structure DFRow where
  date : ℤ
  consumption_mega_units : ℚ
  deriving DecidableEq, Repr

/-- `round(value, 2)` from the forecast formatting loop. -/
def round2 (q : ℚ) : ℚ := (round (q * 100) : ℤ) / 100

/-- Insert a row into a date-sorted list (helper for `sortByDate`). -/
def insertByDate (r : DFRow) : List DFRow → List DFRow
  | [] => [r]
  | x :: xs => if r.date ≤ x.date then r :: x :: xs else x :: insertByDate r xs

/-- `df.sort_values('date')` — sort rows ascending by date. -/
def sortByDate : List DFRow → List DFRow
  | [] => []
  | r :: rs => insertByDate r (sortByDate rs)

/-- `time_series.index.max()` — the maximum date of the retrieved rows. -/
def maxDate : List DFRow → ℤ
  | [] => 0
  | r :: rs => rs.foldl (fun m x => max m x.date) r.date

/-- Structured content of the JSON the forecast method returns
(`forecast_parameters` plus the `(date, value)` forecast list). -/
structure ForecastOutput where
  forecast_days : ℕ
  historical_days_used : ℕ
  based_on_last_date : ℤ
  demand_forecast : List (ℤ × ℚ)
  deriving DecidableEq, Repr

/-- The `ValueError` message raised when fewer than 14 rows come back. -/
def insufficientMsg (n : ℕ) : String :=
  "Insufficient data for forecast. Need at least 14 days, but found " ++ toString n ++ "."

/-- `DemandForecast.forecast`, lines 56-152.  The executed query's outcome is
the explicit argument `queryResult` (`.error e` = the BigQuery call raised,
re-raised as `ConnectionError`; `.ok rows` = the returned rows).  The fitted
Holt-Winters model is abstracted by `fit`: given the ascending-sorted
`(date, value)` series, `fit series i` is `model.forecast(steps=period)[i]`.
`history_days` only parameterizes the query itself (see the binding
definitions below), never this post-query computation. -/
def DemandForecast.forecast (fit : List (ℤ × ℚ) → ℕ → ℚ) (period : ℕ)
    (queryResult : Except String (List DFRow)) : PyResult ForecastOutput :=
  match queryResult with
  | .error e => .raise (.connectionError ("Failed to query BigQuery. Error: " ++ e))
  | .ok rows =>
    if rows.length < 14 then
      .raise (.valueError (insufficientMsg rows.length))
    else
      let series := (sortByDate rows).map (fun r => (r.date, r.consumption_mega_units))
      let last_date := maxDate rows
      .ret
        { forecast_days := period
          historical_days_used := rows.length
          based_on_last_date := last_date
          demand_forecast := (List.range period).map
            (fun (i : ℕ) => (last_date + 1 + (i : ℤ), round2 (fit series i))) }

/-- Structured content of the JSON string returned by the public tool
`get_demand_forecast`. -/
inductive ToolJson where
  | forecastJson (out : ForecastOutput)
  | errorJson (msg : String)
  deriving DecidableEq, Repr

/-- `get_demand_forecast`, lines 154-194: calls the method and converts
every raised exception into an error JSON (`except (ValueError,
ConnectionError)` and the catch-all `except Exception`). -/
def get_demand_forecast (fit : List (ℤ × ℚ) → ℕ → ℚ) (period : ℕ)
    (queryResult : Except String (List DFRow)) : ToolJson :=
  match DemandForecast.forecast fit period queryResult with
  | .ret out => .forecastJson out
  | .raise (.valueError m) => .errorJson m
  | .raise (.connectionError m) => .errorJson m
  | .raise (.keyError m) => .errorJson ("An unexpected error occurred: " ++ m)

/-! Python default-argument semantics for `history_days`.
A call-site argument is `Option (Option ℤ)`: `none` = omitted at the call
site, `some v` = explicitly passed `v` (where `v : Option ℤ` since Python
allows an explicit `None`). -/

/-- Resolution of `DemandForecast.forecast`'s `history_days: Optional[int] = 90`
parameter: the value bound to the query parameter `@history_days`. -/
def DemandForecast.forecast_history_days_binding (call_arg : Option (Option ℤ)) : Option ℤ :=
  call_arg.getD (some 90)

/-- The argument `get_demand_forecast` passes to the inner method: its body
always writes `history_days=history_days` explicitly, after resolving its
own default `history_days: Optional[int] = 365`. -/
def get_demand_forecast_inner_call_arg (call_arg : Option (Option ℤ)) : Option (Option ℤ) :=
  some (call_arg.getD (some 365))

/-- Value bound to `@history_days` (the query `LIMIT`) for a call through
the public entry point `get_demand_forecast`. -/
def get_demand_forecast_history_days_binding (call_arg : Option (Option ℤ)) : Option ℤ :=
  DemandForecast.forecast_history_days_binding (get_demand_forecast_inner_call_arg call_arg)

/-! ## Pipeline/Context Engine — `analyse_weather_toolkit.py` -/

/-- A pandas timestamp, abstracted to the observables the toolkit reads:
a total-order key `epoch` (seconds) and the `.month`/`.day`/`.hour`
accessors. -/
structure PyTimestamp where
  epoch : ℤ
  month : ℕ
  day : ℕ
  hour : ℕ
  deriving DecidableEq, Repr

/-- `ts.normalize()` / `.dt.normalize()`: floor to the start of the day
(same calendar day, hour 0). -/
def PyTimestamp.normalize (t : PyTimestamp) : PyTimestamp :=
  { epoch := t.epoch - t.epoch % 86400, month := t.month, day := t.day, hour := 0 }

/-- One normalized row of the weather DataFrame (the `required_cols` schema
produced by `_get_open_meteo_forecast`; leading digits of the Python column
names are moved to the end to form legal identifiers). -/
structure WeatherRecord where
  init_time : PyTimestamp
  time : PyTimestamp
  temperature_2m : ℚ
  total_precipitation_6hr : ℚ
  mean_sea_level_pressure : ℚ
  u_component_of_wind_10m : ℚ
  v_component_of_wind_10m : ℚ
  specific_humidity_100 : ℚ
  deriving DecidableEq, Repr

/-- The per-session `tool_context.state` bag: a key absent from the dict is
`none`. -/
structure ToolState where
  latitude : Option ℚ
  longitude : Option ℚ
  dataframe : Option (List WeatherRecord)
  chart_filenames : Option (List String)
  deriving DecidableEq, Repr

/-- The `{"status": ..., ...}` dict returned by the load and filter steps. -/
inductive StepOutcome where
  | success (report : String)
  | error (error_message : String)
  deriving DecidableEq, Repr

/-! ### `_get_open_meteo_forecast` and `get_weather_forecast_dataframe` -/

/-- One hourly row of the Open-Meteo JSON payload. -/
structure OMRawRow where
  time : PyTimestamp
  temperature_2m : ℚ
  precipitation : ℚ
  pressure_msl : ℚ
  wind_speed_10m : ℚ
  wind_direction_10m : ℚ
  relative_humidity_2m : ℚ
  deriving DecidableEq, Repr

/-- Outcome of the HTTP call inside `_get_open_meteo_forecast`:
`.exn` = anything raised inside the `try` (network error, non-OK status via
`raise_for_status`, malformed payload); `.ok none` = an absent or empty
`"hourly"` object; `.ok (some rows)` = the hourly rows. -/
inductive OpenMeteoResp where
  | exn (msg : String)
  | ok (hourly : Option (List OMRawRow))
  deriving DecidableEq, Repr

/-- Row normalization of `_get_open_meteo_forecast` (rename, `init_time :=
time.normalize()`, wind u/v from speed and direction, unit conversions).
The numpy trigonometry is abstracted by `windU`/`windV` (speed → direction →
component); no claim depends on their values. -/
def toWeatherRecord (windU windV : ℚ → ℚ → ℚ) (row : OMRawRow) : WeatherRecord :=
  { init_time := row.time.normalize
    time := row.time
    temperature_2m := row.temperature_2m
    total_precipitation_6hr := row.precipitation
    mean_sea_level_pressure := row.pressure_msl
    u_component_of_wind_10m := windU row.wind_speed_10m row.wind_direction_10m
    v_component_of_wind_10m := windV row.wind_speed_10m row.wind_direction_10m
    specific_humidity_100 := row.relative_humidity_2m / 100 }

/-- `_get_open_meteo_forecast`, lines 109-213: every internal failure is
caught and turned into an empty DataFrame; otherwise the hourly rows are
normalized. -/
def get_open_meteo_forecast (windU windV : ℚ → ℚ → ℚ) (resp : OpenMeteoResp) :
    List WeatherRecord :=
  match resp with
  | .exn _ => []
  | .ok none => []
  | .ok (some rows) => rows.map (toWeatherRecord windU windV)

/-- The success report string of the load step. -/
def loadReport (lat lng : ℚ) (n : ℕ) : String :=
  "Successfully loaded DataFrame from Open-Meteo API for location (lat: " ++ toString lat ++
    ", lon: " ++ toString lng ++ "). It has " ++ toString n ++ " rows. "

/-- The missing-coordinates error message of the load step. -/
def latLongMissingMsg : String :=
  "Latitude or longitude not found in context. " ++
    "Please get coordinates from an address first."

/-- `get_weather_forecast_dataframe`, lines 215-267 (the Load Dataset step). -/
def get_weather_forecast_dataframe (windU windV : ℚ → ℚ → ℚ) (st : ToolState)
    (resp : OpenMeteoResp) : StepOutcome × ToolState :=
  if st.latitude.isNone || st.longitude.isNone then
    (.error latLongMissingMsg, st)
  else
    let df := get_open_meteo_forecast windU windV resp
    if df.isEmpty then
      (.error "Weather API returned no data.", st)
    else
      (.success (loadReport (st.latitude.getD 0) (st.longitude.getD 0) df.length),
        { st with dataframe := some df })

/-! ### `filter_weather_dataframe_by_time` -/

/-- The strict single-day mask (no `end_time`): month and day match the
target and the hour component is exactly 0. -/
def singleDayMask (target : PyTimestamp) (r : WeatherRecord) : Bool :=
  decide (r.init_time.month = target.month) && decide (r.init_time.day = target.day) &&
    decide (r.init_time.hour = 0)

/-- The inclusive range mask (`end_time` given):
`start_dt <= init_time <= end_dt`. -/
def rangeMask (start_dt end_dt : PyTimestamp) (r : WeatherRecord) : Bool :=
  decide (start_dt.epoch ≤ r.init_time.epoch) && decide (r.init_time.epoch ≤ end_dt.epoch)

/-- The report string of the filter step. -/
def filterReport (now originally : ℕ) : String :=
  "Filtered DataFrame. It now has " ++ toString now ++ " rows, down from an original " ++
    toString originally ++ " rows."

/-- `filter_weather_dataframe_by_time`, lines 269-337 (the Filter Dataset
step).  `none` for `st.dataframe` models the `"dataframe"` key being absent;
`some []` models a present but empty record list (`if not df_data`). -/
def filter_weather_dataframe_by_time (st : ToolState) (init_time : PyTimestamp)
    (end_time : Option PyTimestamp) : StepOutcome × ToolState :=
  match st.dataframe with
  | none => (.error "No DataFrame in context. Please load a DataFrame first.", st)
  | some records =>
    if records.isEmpty then
      (.error "DataFrame is empty or not found in context.", st)
    else
      let mask : WeatherRecord → Bool :=
        match end_time with
        | some e => rangeMask init_time e
        | none => singleDayMask init_time
      let filtered := records.filter mask
      (.success (filterReport filtered.length records.length),
        { st with dataframe := some filtered })

/-! ### `generate_weather_info_charts` -/

/-- The `{"status": ..., ...}` dict returned by the chart step, together
with the data actually handed to the six renderers (`plotted` is the
clipped DataFrame every chart is drawn from; the real dict carries only
status and report, the artifacts are persisted via `save_artifact`). -/
inductive ChartsOutcome where
  | success (report : String) (plotted : List WeatherRecord)
  | error (error_message : String)
  deriving DecidableEq, Repr

/-- The keys of `plot_variables` (one chart per meteorological field). -/
def plot_variables : List String :=
  ["2m_temperature", "total_precipitation_6hr", "mean_sea_level_pressure",
   "10m_u_component_of_wind", "10m_v_component_of_wind", "100_specific_humidity"]

/-- The artifact names: `f"{col}_plot.png"` for each plotted column. -/
def chart_filenames_list : List String := plot_variables.map (fun c => c ++ "_plot.png")

/-- `pd.Timedelta(days=7)` in epoch seconds. -/
def sevenDaysSeconds : ℤ := 7 * 86400

/-- `df['time'].min()` over the records. -/
def minTimeEpoch : List WeatherRecord → ℤ
  | [] => 0
  | r :: rs => rs.foldl (fun m x => min m x.time.epoch) r.time.epoch

/-- The success report string of the chart step. -/
def chartsSuccessReport : String :=
  "Successfully generated and saved " ++ toString chart_filenames_list.length ++
    " charts as artifacts: " ++ String.intercalate ", " chart_filenames_list

/-- `generate_weather_info_charts`, lines 339-427 (the Render Charts step).
The branch order follows the source: absent key, falsy (empty) `df_data`,
the `df.empty` no-charts note (reachable only with zero rows, hence dead
after the previous check for list-shaped state), then the 7-day clip and
the six renders. -/
def generate_weather_info_charts (st : ToolState) : ChartsOutcome × ToolState :=
  match st.dataframe with
  | none =>
    (.error "No DataFrame in context. Please load and filter a DataFrame first.", st)
  | some records =>
    if records.isEmpty then
      (.error "DataFrame is empty or not found in context.", st)
    else if records.isEmpty then
      (.success "DataFrame is empty, no charts generated." [], st)
    else
      let cutoff := minTimeEpoch records + sevenDaysSeconds
      let plotted := records.filter (fun r => decide (r.time.epoch < cutoff))
      (.success chartsSuccessReport plotted,
        { st with chart_filenames := some chart_filenames_list })

/-! ### `get_lat_long_from_address` -/

/-- Response of the primary (Google Maps) geocoding request: `.exn` =
anything raised in the primary `try` (caught by its broad `except`); `.ok
status results` = the parsed payload, `results` flattened to the
`(lat, lng)` of `["geometry"]["location"]` per entry. -/
inductive PrimResp where
  | exn (msg : String)
  | ok (status : String) (results : List (ℚ × ℚ))
  deriving DecidableEq, Repr

/-- One entry of the secondary (Open-Meteo) geocoding `results` list; a
missing dictionary key is `none`. -/
structure OMGeoRecord where
  latitude : Option ℚ
  longitude : Option ℚ
  deriving DecidableEq, Repr

/-- Response of the secondary geocoding request: `.exn` = a raised
`requests.exceptions.RequestException`; `.ok none` = payload without a
(truthy) `"results"` key; `.ok (some l)` = payload with results list `l`. -/
inductive SecResp where
  | exn (msg : String)
  | ok (results : Option (List OMGeoRecord))
  deriving DecidableEq, Repr

/-- Returned dict of the geocoding step, split by error message. -/
inductive GeoReturn where
  | success (latitude longitude : ℚ)
  | locationNotFound (error_message : String)
  | httpFailed (error_message : String)
  deriving DecidableEq, Repr

/-- Observable run of the geocoding step: its Python outcome (a returned
dict, or an exception escaping the function), whether each provider's
request was issued, and the resulting context state. -/
structure GeoRun where
  result : PyResult GeoReturn
  primaryTried : Bool
  secondaryTried : Bool
  state : ToolState
  deriving DecidableEq, Repr

/-- Lines 525-559: the secondary (Open-Meteo) fallback block.  Its `try`
catches only `requests.exceptions.RequestException`; the key lookups
`location["latitude"]` / `location["longitude"]` on the first result are
outside any matching handler, so a missing key raises an uncaught
`KeyError`. -/
def geocodeFallback (st : ToolState) (s : SecResp) (address : String)
    (primaryTried : Bool) : GeoRun :=
  match s with
  | .exn m =>
    ⟨.ret (.httpFailed ("HTTP Request failed: " ++ m)), primaryTried, true, st⟩
  | .ok none =>
    ⟨.ret (.locationNotFound ("Location not found for " ++ address)), primaryTried, true, st⟩
  | .ok (some []) =>
    ⟨.ret (.locationNotFound ("Location not found for " ++ address)), primaryTried, true, st⟩
  | .ok (some (rec :: _)) =>
    match rec.latitude with
    | none => ⟨.raise (.keyError "latitude"), primaryTried, true, st⟩
    | some la =>
      match rec.longitude with
      | none => ⟨.raise (.keyError "longitude"), primaryTried, true, st⟩
      | some ln =>
        ⟨.ret (.success la ln), primaryTried, true,
          { st with latitude := some la, longitude := some ln }⟩

/-- `get_lat_long_from_address`, lines 483-559 (the Resolve Location step).
`key` is the truthiness of `self.geo_maps_api_key`: when false the primary
block is skipped entirely.  Any failure inside the primary block (raised
exception, non-"OK" status, or the `IndexError` on an empty results list)
falls through to the secondary. -/
def get_lat_long_from_address (st : ToolState) (key : Bool) (p : PrimResp)
    (s : SecResp) (address : String) : GeoRun :=
  if key then
    match p with
    | .exn _ => geocodeFallback st s address true
    | .ok status results =>
      if status = "OK" then
        match results with
        | (la, ln) :: _ =>
          ⟨.ret (.success la ln), true, false,
            { st with latitude := some la, longitude := some ln }⟩
        | [] => geocodeFallback st s address true
      else geocodeFallback st s address true
  else geocodeFallback st s address false

/-! ## Helper lemmas -/

theorem le_foldl_max_date (l : List DFRow) (b : ℤ) :
    b ≤ l.foldl (fun m x => max m x.date) b := by
  induction l generalizing b with
  | nil => simp
  | cons r rs ih =>
    simpa using le_trans (le_max_left b r.date) (ih (max b r.date))

theorem mem_le_foldl_max_date (l : List DFRow) (b : ℤ) (x : DFRow) (hx : x ∈ l) :
    x.date ≤ l.foldl (fun m x => max m x.date) b := by
  induction l generalizing b with
  | nil => cases hx
  | cons r rs ih =>
    rcases List.mem_cons.mp hx with h | h
    · subst h
      simpa using le_trans (le_max_right b x.date) (le_foldl_max_date rs (max b x.date))
    · simpa using ih (max b r.date) h

/-- `maxDate` is an upper bound of the dates of the rows. -/
theorem date_le_maxDate (rows : List DFRow) (r : DFRow) (h : r ∈ rows) :
    r.date ≤ maxDate rows := by
  cases rows with
  | nil => cases h
  | cons x xs =>
    rcases List.mem_cons.mp h with h' | h'
    · subst h'
      exact le_foldl_max_date xs r.date
    · exact mem_le_foldl_max_date xs x.date r h'

theorem foldl_min_epoch_le (l : List WeatherRecord) (b : ℤ) :
    l.foldl (fun m x => min m x.time.epoch) b ≤ b := by
  induction l generalizing b with
  | nil => simp
  | cons r rs ih =>
    simpa using le_trans (ih (min b r.time.epoch)) (min_le_left b r.time.epoch)

theorem foldl_min_epoch_le_mem (l : List WeatherRecord) (b : ℤ) (x : WeatherRecord)
    (hx : x ∈ l) : l.foldl (fun m x => min m x.time.epoch) b ≤ x.time.epoch := by
  induction l generalizing b with
  | nil => cases hx
  | cons r rs ih =>
    rcases List.mem_cons.mp hx with h | h
    · subst h
      simpa using le_trans (foldl_min_epoch_le rs (min b x.time.epoch))
        (min_le_right b x.time.epoch)
    · simpa using ih (min b r.time.epoch) h

/-- `minTimeEpoch` is a lower bound of the record timestamps. -/
theorem minTimeEpoch_le (records : List WeatherRecord) (r : WeatherRecord)
    (h : r ∈ records) : minTimeEpoch records ≤ r.time.epoch := by
  cases records with
  | nil => cases h
  | cons x xs =>
    rcases List.mem_cons.mp h with h' | h'
    · subst h'
      exact foldl_min_epoch_le xs r.time.epoch
    · exact foldl_min_epoch_le_mem xs x.time.epoch r h'

/-- Filtering with a fixed predicate is idempotent on lists. -/
theorem filter_self_idem {α : Type} (p : α → Bool) (l : List α) :
    (l.filter p).filter p = l.filter p := by
  induction l with
  | nil => rfl
  | cons a t ih =>
    cases hp : p a <;> simp [List.filter_cons, hp, ih]

/-- With at least 14 rows the forecast method reaches the fit-and-forecast
branch and returns an output (shared helper). -/
theorem forecast_ret_of_enough_rows (fit : List (ℤ × ℚ) → ℕ → ℚ) (period : ℕ)
    (rows : List DFRow) (h : 14 ≤ rows.length) :
    ∃ out, DemandForecast.forecast fit period (.ok rows) = .ret out :=
  ⟨{ forecast_days := period
     historical_days_used := rows.length
     based_on_last_date := maxDate rows
     demand_forecast := (List.range period).map
       (fun (i : ℕ) =>
         (maxDate rows + 1 + (i : ℤ),
           round2 (fit ((sortByDate rows).map
             (fun r => (r.date, r.consumption_mega_units))) i))) },
    by simp only [DemandForecast.forecast, if_neg (Nat.not_lt.mpr h)]⟩

/-- On a non-empty context dataset the chart step succeeds and renders the
clipped rows (shared helper). -/
theorem charts_success_of_ne_nil (st : ToolState) (records : List WeatherRecord)
    (h : st.dataframe = some records) (hne : records ≠ []) :
    (generate_weather_info_charts st).1 = .success chartsSuccessReport
      (records.filter
        (fun r => decide (r.time.epoch < minTimeEpoch records + sevenDaysSeconds))) := by
  have hre : records.isEmpty = false := by
    cases records
    · exact absurd rfl hne
    · rfl
  simp [generate_weather_info_charts, h, hre]

/-! ## Concrete instances used by witnesses -/

/-- A trivial stand-in for the fitted model (any abstract fit works). -/
def fit0 : List (ℤ × ℚ) → ℕ → ℚ := fun _ _ => 0

/-- A 13-row historical series (dates 0..12). -/
def rows13 : List DFRow := (List.range 13).map (fun i => ⟨(i : ℤ), 0⟩)

/-- A 14-row historical series (dates 0..13). -/
def rows14 : List DFRow := (List.range 14).map (fun i => ⟨(i : ℤ), 0⟩)

/-! ## Claim theorems -/

/-- C1: if the executed history query returns fewer than 14 rows, the
Forecast Builder rejects the request with the InsufficientHistory error
(`ValueError`) before any model fitting (the outcome is the same for every
fitted model), regardless of the requested `history_days`; with 14 or more
rows it proceeds to fit and forecast. -/
theorem forecast_insufficient_history_gate
    (fit fit2 : List (ℤ × ℚ) → ℕ → ℚ) (period : ℕ) (rows : List DFRow) :
    (rows.length < 14 →
      DemandForecast.forecast fit period (.ok rows) =
        .raise (.valueError (insufficientMsg rows.length)) ∧
      DemandForecast.forecast fit period (.ok rows) =
        DemandForecast.forecast fit2 period (.ok rows)) ∧
    (14 ≤ rows.length →
      ∃ out, DemandForecast.forecast fit period (.ok rows) = .ret out) := by
  constructor
  · intro h
    constructor <;> simp only [DemandForecast.forecast, if_pos h]
  · intro h
    exact forecast_ret_of_enough_rows fit period rows h

theorem forecast_insufficient_history_gate_witness :
    rows13.length < 14 ∧ 14 ≤ rows14.length ∧
    DemandForecast.forecast fit0 5 (.ok rows13) =
      .raise (.valueError (insufficientMsg rows13.length)) ∧
    ∃ out, DemandForecast.forecast fit0 5 (.ok rows14) = .ret out :=
  ⟨by decide, by decide,
    ((forecast_insufficient_history_gate fit0 fit0 5 rows13).1 (by decide)).1,
    (forecast_insufficient_history_gate fit0 fit0 5 rows14).2 (by decide)⟩

/-- C2: for a forecast request with period `n ≥ 1` whose query succeeds with
at least 14 rows, the result holds exactly `n` (date, value) pairs whose
dates are consecutive calendar days in strictly ascending order starting the
day after the maximum historical date, and every value is rounded to 2
decimal places (an integer multiple of 1/100). -/
theorem forecast_output_shape (fit : List (ℤ × ℚ) → ℕ → ℚ) (period : ℕ)
    (rows : List DFRow) (_hp : 1 ≤ period) (h14 : 14 ≤ rows.length) :
    ∃ out, DemandForecast.forecast fit period (.ok rows) = .ret out ∧
      out.demand_forecast.length = period ∧
      out.demand_forecast.map Prod.fst =
        (List.range period).map (fun (i : ℕ) => maxDate rows + 1 + (i : ℤ)) ∧
      List.Pairwise (· < ·) (out.demand_forecast.map Prod.fst) ∧
      (∀ r ∈ rows, r.date ≤ maxDate rows) ∧
      (∀ p ∈ out.demand_forecast, ∃ k : ℤ, p.2 = (k : ℚ) / 100) := by
  have hlt : ¬ rows.length < 14 := Nat.not_lt.mpr h14
  refine ⟨{ forecast_days := period
            historical_days_used := rows.length
            based_on_last_date := maxDate rows
            demand_forecast := (List.range period).map
              (fun (i : ℕ) =>
                (maxDate rows + 1 + (i : ℤ),
                  round2 (fit ((sortByDate rows).map
                    (fun r => (r.date, r.consumption_mega_units))) i))) },
    by simp only [DemandForecast.forecast, if_neg hlt], ?_, ?_, ?_, ?_, ?_⟩
  · simp
  · simp [List.map_map, Function.comp]
  · have hmap :
        ((List.range period).map
            (fun (i : ℕ) =>
              (maxDate rows + 1 + (i : ℤ),
                round2 (fit ((sortByDate rows).map
                  (fun r => (r.date, r.consumption_mega_units))) i)))).map Prod.fst =
          (List.range period).map (fun (i : ℕ) => maxDate rows + 1 + (i : ℤ)) := by
      simp [List.map_map, Function.comp]
    rw [hmap]
    exact (List.pairwise_lt_range period).map _ (fun a b hab => by omega)
  · exact fun r hr => date_le_maxDate rows r hr
  · intro p hp'
    simp only [List.mem_map, List.mem_range] at hp'
    obtain ⟨i, _, rfl⟩ := hp'
    exact ⟨round (fit ((sortByDate rows).map
      (fun r => (r.date, r.consumption_mega_units))) i * 100), rfl⟩

theorem forecast_output_shape_witness :
    (1 : ℕ) ≤ 5 ∧ 14 ≤ rows14.length ∧
    ∃ out, DemandForecast.forecast fit0 5 (.ok rows14) = .ret out ∧
      out.demand_forecast.length = 5 ∧
      out.demand_forecast.map Prod.fst =
        (List.range 5).map (fun (i : ℕ) => maxDate rows14 + 1 + (i : ℤ)) ∧
      List.Pairwise (· < ·) (out.demand_forecast.map Prod.fst) ∧
      (∀ r ∈ rows14, r.date ≤ maxDate rows14) ∧
      (∀ p ∈ out.demand_forecast, ∃ k : ℤ, p.2 = (k : ℚ) / 100) :=
  ⟨by decide, by decide, forecast_output_shape fit0 5 rows14 (by decide) (by decide)⟩

/-- C9: a call through the public entry point `get_demand_forecast` that
omits `history_days` binds 365 (not the 90 of the docstring and of the
inner method default) to the query `LIMIT` parameter, and the inner
method's own default is never consulted since the wrapper always passes the
argument explicitly. -/
theorem public_forecast_limit_is_365 :
    get_demand_forecast_history_days_binding none = some 365 ∧
    (∀ a, get_demand_forecast_history_days_binding a = a.getD (some 365)) ∧
    (∀ a, get_demand_forecast_inner_call_arg a ≠ none) := by
  refine ⟨rfl, fun a => rfl, fun a h => ?_⟩
  simp [get_demand_forecast_inner_call_arg] at h

theorem public_forecast_limit_is_365_witness :
    get_demand_forecast_history_days_binding none = some 365 ∧
    get_demand_forecast_history_days_binding (some (some 30)) = some 30 ∧
    get_demand_forecast_inner_call_arg none ≠ none :=
  ⟨public_forecast_limit_is_365.1,
    public_forecast_limit_is_365.2.1 (some (some 30)),
    public_forecast_limit_is_365.2.2 none⟩

/-- C5: Filter Dataset without `endTime` leaves in context exactly those
input records whose `init_time` month and day equal the target's and whose
hour component is exactly 0; the output is a sub-list of the input and never
larger. -/
theorem filter_single_day_mode (st : ToolState) (records : List WeatherRecord)
    (t : PyTimestamp) (h : st.dataframe = some records) :
    ∃ out, ((filter_weather_dataframe_by_time st t none).2).dataframe = some out ∧
      (∀ r, r ∈ out ↔ r ∈ records ∧
        (r.init_time.month = t.month ∧ r.init_time.day = t.day ∧ r.init_time.hour = 0)) ∧
      out.Sublist records ∧ out.length ≤ records.length := by
  cases records with
  | nil =>
    refine ⟨[], ?_, by simp, by simp, by simp⟩
    simp [filter_weather_dataframe_by_time, h]
  | cons a l =>
    refine ⟨(a :: l).filter (singleDayMask t), ?_, ?_, List.filter_sublist _,
      List.length_filter_le _ _⟩
    · simp [filter_weather_dataframe_by_time, h]
    · intro r
      simp [List.mem_filter, singleDayMask, and_assoc]

/-- Concrete session state for the filter witnesses: two records, one on the
target calendar day at hour 0, one an hour later on the next day. -/
def recA : WeatherRecord := ⟨⟨0, 6, 15, 0⟩, ⟨0, 6, 15, 0⟩, 0, 0, 0, 0, 0, 0⟩

def recB : WeatherRecord := ⟨⟨90000, 6, 16, 1⟩, ⟨90000, 6, 16, 1⟩, 0, 0, 0, 0, 0, 0⟩

def recsW : List WeatherRecord := [recA, recB]

def stW : ToolState :=
  { latitude := some 10, longitude := some 20, dataframe := some recsW,
    chart_filenames := none }

def ts615 : PyTimestamp := ⟨0, 6, 15, 0⟩

theorem filter_single_day_mode_witness :
    stW.dataframe = some recsW ∧
    ∃ out, ((filter_weather_dataframe_by_time stW ts615 none).2).dataframe = some out ∧
      (∀ r, r ∈ out ↔ r ∈ recsW ∧
        (r.init_time.month = ts615.month ∧ r.init_time.day = ts615.day ∧
          r.init_time.hour = 0)) ∧
      out.Sublist recsW ∧ out.length ≤ recsW.length :=
  ⟨rfl, filter_single_day_mode stW recsW ts615 rfl⟩

/-- C8: filtering is idempotent in both modes — running Filter Dataset a
second time with the same `init_time`/`end_time` arguments on the context
produced by the first run leaves the whole context state unchanged. -/
theorem filter_idempotent (st : ToolState) (t : PyTimestamp)
    (e : Option PyTimestamp) :
    (filter_weather_dataframe_by_time
        (filter_weather_dataframe_by_time st t e).2 t e).2 =
      (filter_weather_dataframe_by_time st t e).2 := by
  cases hdf : st.dataframe with
  | none => simp [filter_weather_dataframe_by_time, hdf]
  | some records =>
    by_cases hre : records.isEmpty
    · simp [filter_weather_dataframe_by_time, hdf, hre]
    · cases e with
      | none =>
        by_cases hf : (records.filter (singleDayMask t)).isEmpty
        · simp [filter_weather_dataframe_by_time, hdf, hre, hf]
        · simp [filter_weather_dataframe_by_time, hdf, hre, hf, filter_self_idem]
      | some e' =>
        by_cases hf : (records.filter (rangeMask t e')).isEmpty
        · simp [filter_weather_dataframe_by_time, hdf, hre, hf]
        · simp [filter_weather_dataframe_by_time, hdf, hre, hf, filter_self_idem]

theorem foldl_min_epoch_attained (l : List WeatherRecord) (b : ℤ) :
    l.foldl (fun m x => min m x.time.epoch) b = b ∨
      ∃ x ∈ l, l.foldl (fun m x => min m x.time.epoch) b = x.time.epoch := by
  induction l generalizing b with
  | nil => exact .inl rfl
  | cons r rs ih =>
    rcases ih (min b r.time.epoch) with h | ⟨x, hx, hfx⟩
    · by_cases hbr : b ≤ r.time.epoch
      · left
        simpa [min_eq_left hbr] using h
      · right
        exact ⟨r, by simp, by simpa [min_eq_right (le_of_not_le hbr)] using h⟩
    · right
      exact ⟨x, by simp [hx], by simpa using hfx⟩

/-- `minTimeEpoch` is attained by some record of a non-empty dataset. -/
theorem minTimeEpoch_attained (records : List WeatherRecord) (hne : records ≠ []) :
    ∃ r ∈ records, r.time.epoch = minTimeEpoch records := by
  cases records with
  | nil => exact absurd rfl hne
  | cons a l =>
    rcases foldl_min_epoch_attained l a.time.epoch with h | ⟨x, hx, hfx⟩
    · exact ⟨a, by simp, by simp [minTimeEpoch, h]⟩
    · exact ⟨x, by simp [hx], by simp [minTimeEpoch, hfx]⟩

/-- C7: on a non-empty dataset, Render Charts draws every chart from
exactly the records whose timestamp is strictly within 7 days of the
minimum timestamp present; records at or beyond that cutoff belong to no
rendered artifact, and the operation still succeeds (silent drop, not an
error). -/
theorem charts_seven_day_clip (st : ToolState) (records : List WeatherRecord)
    (h : st.dataframe = some records) (hne : records ≠ []) :
    ∃ plotted,
      (generate_weather_info_charts st).1 = .success chartsSuccessReport plotted ∧
      plotted = records.filter
        (fun r => decide (r.time.epoch < minTimeEpoch records + sevenDaysSeconds)) ∧
      (∀ r ∈ records,
        minTimeEpoch records + sevenDaysSeconds ≤ r.time.epoch → r ∉ plotted) ∧
      (∀ r ∈ plotted,
        r ∈ records ∧ r.time.epoch < minTimeEpoch records + sevenDaysSeconds) ∧
      (∀ r ∈ records, minTimeEpoch records ≤ r.time.epoch) := by
  refine ⟨records.filter
      (fun r => decide (r.time.epoch < minTimeEpoch records + sevenDaysSeconds)),
    charts_success_of_ne_nil st records h hne, rfl, ?_, ?_,
    fun r hr => minTimeEpoch_le records r hr⟩
  · intro r _ hge hmem
    rw [List.mem_filter] at hmem
    have := of_decide_eq_true hmem.2
    omega
  · intro r hr
    rw [List.mem_filter] at hr
    exact ⟨hr.1, of_decide_eq_true hr.2⟩

theorem charts_seven_day_clip_witness :
    stW.dataframe = some recsW ∧ recsW ≠ [] ∧
    ∃ plotted,
      (generate_weather_info_charts stW).1 = .success chartsSuccessReport plotted ∧
      plotted = recsW.filter
        (fun r => decide (r.time.epoch < minTimeEpoch recsW + sevenDaysSeconds)) ∧
      (∀ r ∈ recsW,
        minTimeEpoch recsW + sevenDaysSeconds ≤ r.time.epoch → r ∉ plotted) ∧
      (∀ r ∈ plotted,
        r ∈ recsW ∧ r.time.epoch < minTimeEpoch recsW + sevenDaysSeconds) ∧
      (∀ r ∈ recsW, minTimeEpoch recsW ≤ r.time.epoch) :=
  ⟨rfl, by decide, charts_seven_day_clip stW recsW rfl (by decide)⟩

/-- The context of a session whose loaded-then-filtered dataset ended up
empty. -/
def emptyDatasetState : ToolState :=
  { latitude := none, longitude := none, dataframe := some [],
    chart_filenames := none }

/-- C6 counterexample: with an empty dataset in context, Render Charts
returns an error dict ("DataFrame is empty or not found in context."), not
a success carrying the "no charts generated" note as the claim states. -/
theorem charts_empty_dataset_error_cex :
    emptyDatasetState.dataframe = some [] ∧
    (generate_weather_info_charts emptyDatasetState).1 =
      .error "DataFrame is empty or not found in context." ∧
    ∀ rep pl, (generate_weather_info_charts emptyDatasetState).1 ≠ .success rep pl := by
  refine ⟨rfl, by decide, ?_⟩
  intro rep pl hcontra
  simp [generate_weather_info_charts, emptyDatasetState] at hcontra

/-- C6 amended: when the dataset available to Render Charts is empty the
operation returns an error result ("DataFrame is empty or not found in
context."), not a success; when it is non-empty the operation succeeds and
the 7-day clip always retains at least the record attaining the minimum
timestamp, so the clipped dataset is never empty and the "no charts
generated" success branch is unreachable. -/
theorem charts_empty_dataset_behavior (st : ToolState)
    (records : List WeatherRecord) (h : st.dataframe = some records) :
    (records = [] →
      (generate_weather_info_charts st).1 =
        .error "DataFrame is empty or not found in context.") ∧
    (records ≠ [] →
      ∃ pl, (generate_weather_info_charts st).1 = .success chartsSuccessReport pl ∧
        pl ≠ []) := by
  constructor
  · intro hrecords
    subst hrecords
    simp [generate_weather_info_charts, h]
  · intro hne
    refine ⟨records.filter
        (fun r => decide (r.time.epoch < minTimeEpoch records + sevenDaysSeconds)),
      charts_success_of_ne_nil st records h hne, ?_⟩
    obtain ⟨r, hr, hmin⟩ := minTimeEpoch_attained records hne
    have hrpl : r ∈ records.filter
        (fun r => decide (r.time.epoch < minTimeEpoch records + sevenDaysSeconds)) := by
      rw [List.mem_filter]
      refine ⟨hr, decide_eq_true ?_⟩
      have : (0 : ℤ) < sevenDaysSeconds := by decide
      omega
    intro hempty
    rw [hempty] at hrpl
    cases hrpl

theorem charts_empty_dataset_behavior_witness :
    emptyDatasetState.dataframe = some [] ∧ stW.dataframe = some recsW ∧
    ((([] : List WeatherRecord) = [] →
      (generate_weather_info_charts emptyDatasetState).1 =
        .error "DataFrame is empty or not found in context.") ∧
    (([] : List WeatherRecord) ≠ [] →
      ∃ pl, (generate_weather_info_charts emptyDatasetState).1 =
          .success chartsSuccessReport pl ∧ pl ≠ [])) ∧
    ((recsW = [] →
      (generate_weather_info_charts stW).1 =
        .error "DataFrame is empty or not found in context.") ∧
    (recsW ≠ [] →
      ∃ pl, (generate_weather_info_charts stW).1 =
          .success chartsSuccessReport pl ∧ pl ≠ [])) :=
  ⟨rfl, rfl, charts_empty_dataset_behavior emptyDatasetState [] rfl,
    charts_empty_dataset_behavior stW recsW rfl⟩

theorem geocodeFallback_primaryTried (st : ToolState) (s : SecResp)
    (address : String) (b : Bool) :
    (geocodeFallback st s address b).primaryTried = b := by
  rcases s with m | r
  · rfl
  · rcases r with _ | l
    · rfl
    · rcases l with _ | ⟨⟨la, ln⟩, rest⟩
      · rfl
      · rcases la with _ | la
        · rfl
        · rcases ln with _ | ln <;> rfl

theorem geocodeFallback_secondaryTried (st : ToolState) (s : SecResp)
    (address : String) (b : Bool) :
    (geocodeFallback st s address b).secondaryTried = true := by
  rcases s with m | r
  · rfl
  · rcases r with _ | l
    · rfl
    · rcases l with _ | ⟨⟨la, ln⟩, rest⟩
      · rfl
      · rcases la with _ | la
        · rfl
        · rcases ln with _ | ln <;> rfl

theorem geocodeFallback_notFound (st : ToolState) (s : SecResp) (address : String)
    (b : Bool) (m : String)
    (h : (geocodeFallback st s address b).result = .ret (.locationNotFound m)) :
    s = .ok none ∨ s = .ok (some []) := by
  rcases s with msg | r
  · exact absurd h (by simp [geocodeFallback])
  · rcases r with _ | l
    · exact .inl rfl
    · rcases l with _ | ⟨⟨la, ln⟩, rest⟩
      · exact .inr rfl
      · rcases la with _ | la
        · exact absurd h (by simp [geocodeFallback])
        · rcases ln with _ | ln
          · exact absurd h (by simp [geocodeFallback])
          · exact absurd h (by simp [geocodeFallback])

theorem geocodeFallback_raise (st : ToolState) (s : SecResp) (address : String)
    (b : Bool) (exc : PyExc)
    (h : (geocodeFallback st s address b).result = .raise exc) :
    ∃ rec rest, s = .ok (some (rec :: rest)) ∧
      (rec.latitude = none ∨ rec.longitude = none) := by
  rcases s with msg | r
  · exact absurd h (by simp [geocodeFallback])
  · rcases r with _ | l
    · exact absurd h (by simp [geocodeFallback])
    · rcases l with _ | ⟨⟨la, ln⟩, rest⟩
      · exact absurd h (by simp [geocodeFallback])
      · rcases la with _ | la
        · exact ⟨⟨none, ln⟩, rest, rfl, .inl rfl⟩
        · rcases ln with _ | ln
          · exact ⟨⟨some la, none⟩, rest, rfl, .inr rfl⟩
          · exact absurd h (by simp [geocodeFallback])

theorem geocodeFallback_success (st : ToolState) (address : String) (b : Bool)
    (la ln : ℚ) (rest : List OMGeoRecord) :
    (geocodeFallback st (.ok (some (⟨some la, some ln⟩ :: rest))) address b).result =
      .ret (.success la ln) := rfl

/-- An empty per-session context, as created for a fresh conversation. -/
def geoStateW : ToolState := ⟨none, none, none, none⟩

/-- C3 counterexample: with no Maps API key configured (the key is optional
in `AgentConfig`), the primary provider is never tried, yet a secondary
response with an empty result set still yields the LocationNotFound error —
so "LocationNotFound only when both providers have been tried and failed"
is false. -/
theorem geocode_notFound_without_primary_cex :
    (get_lat_long_from_address geoStateW false (.exn "unused") (.ok (some []))
        "Berlin").result = .ret (.locationNotFound "Location not found for Berlin") ∧
    (get_lat_long_from_address geoStateW false (.exn "unused") (.ok (some []))
        "Berlin").primaryTried = false := by
  constructor <;> rfl

/-- C3 amended: the primary provider is tried (at most once) exactly when a
Maps API key is configured; a primary success returns its coordinates
without touching the secondary; any primary failure — or an absent key —
leads to at most one secondary attempt whose success returns its
coordinates; a LocationNotFound error is returned exactly when the
secondary was tried and returned no results (with a configured key this
means both providers were tried and failed). -/
theorem geocode_fallback_chain (st : ToolState) (key : Bool) (p : PrimResp)
    (s : SecResp) (address : String) :
    ((get_lat_long_from_address st key p s address).primaryTried = key) ∧
    (∀ la ln rest, key = true → p = .ok "OK" ((la, ln) :: rest) →
      (get_lat_long_from_address st key p s address).result = .ret (.success la ln) ∧
      (get_lat_long_from_address st key p s address).secondaryTried = false) ∧
    (key = false →
      get_lat_long_from_address st key p s address = geocodeFallback st s address false) ∧
    (∀ m, key = true → p = .exn m →
      get_lat_long_from_address st key p s address = geocodeFallback st s address true) ∧
    (∀ status results, key = true → p = .ok status results →
      (status ≠ "OK" ∨ results = []) →
      get_lat_long_from_address st key p s address = geocodeFallback st s address true) ∧
    (∀ la ln rest b,
      (geocodeFallback st (.ok (some (⟨some la, some ln⟩ :: rest))) address b).result =
        .ret (.success la ln) ∧
      (geocodeFallback st (.ok (some (⟨some la, some ln⟩ :: rest))) address b).secondaryTried
        = true) ∧
    (∀ m, (get_lat_long_from_address st key p s address).result =
        .ret (.locationNotFound m) →
      (get_lat_long_from_address st key p s address).secondaryTried = true ∧
      (s = .ok none ∨ s = .ok (some []))) := by
  refine ⟨?_, ?_, ?_, ?_, ?_, ?_, ?_⟩
  · cases key with
    | false => simpa [get_lat_long_from_address] using
        geocodeFallback_primaryTried st s address false
    | true =>
      rcases p with m | ⟨status, results⟩
      · simpa [get_lat_long_from_address] using
          geocodeFallback_primaryTried st s address true
      · by_cases hs : status = "OK"
        · rcases results with _ | ⟨⟨la, ln⟩, rest⟩
          · simpa [get_lat_long_from_address, hs] using
              geocodeFallback_primaryTried st s address true
          · simp [get_lat_long_from_address, hs]
        · simpa [get_lat_long_from_address, hs] using
            geocodeFallback_primaryTried st s address true
  · intro la ln rest hkey hp
    subst hkey
    subst hp
    constructor <;> rfl
  · intro hkey
    subst hkey
    rfl
  · intro m hkey hp
    subst hkey
    subst hp
    rfl
  · intro status results hkey hp hfail
    subst hkey
    subst hp
    by_cases hs : status = "OK"
    · rcases hfail with hfail | hfail
      · exact absurd hs hfail
      · subst hfail
        simp [get_lat_long_from_address, hs]
    · simp [get_lat_long_from_address, hs]
  · intro la ln rest b
    exact ⟨geocodeFallback_success st address b la ln rest,
      geocodeFallback_secondaryTried st (.ok (some (⟨some la, some ln⟩ :: rest))) address b⟩
  · intro m hm
    cases key with
    | false =>
      have heq : get_lat_long_from_address st false p s address =
          geocodeFallback st s address false := rfl
      rw [heq] at hm ⊢
      exact ⟨geocodeFallback_secondaryTried st s address false,
        geocodeFallback_notFound st s address false m hm⟩
    | true =>
      rcases p with pm | ⟨status, results⟩
      · have heq : get_lat_long_from_address st true (.exn pm) s address =
            geocodeFallback st s address true := rfl
        rw [heq] at hm ⊢
        exact ⟨geocodeFallback_secondaryTried st s address true,
          geocodeFallback_notFound st s address true m hm⟩
      · by_cases hs : status = "OK"
        · rcases results with _ | ⟨⟨la, ln⟩, rest⟩
          · have heq : get_lat_long_from_address st true (.ok status []) s address =
                geocodeFallback st s address true := by
              simp [get_lat_long_from_address, hs]
            rw [heq] at hm ⊢
            exact ⟨geocodeFallback_secondaryTried st s address true,
              geocodeFallback_notFound st s address true m hm⟩
          · exact absurd hm (by simp [get_lat_long_from_address, hs])
        · have heq : get_lat_long_from_address st true (.ok status results) s address =
              geocodeFallback st s address true := by
            simp [get_lat_long_from_address, hs]
          rw [heq] at hm ⊢
          exact ⟨geocodeFallback_secondaryTried st s address true,
            geocodeFallback_notFound st s address true m hm⟩

theorem geocode_fallback_chain_witness :
    ((get_lat_long_from_address geoStateW true (.ok "OK" [((1 : ℚ), (2 : ℚ))])
        (.exn "down") "Delhi").result = .ret (.success 1 2) ∧
      (get_lat_long_from_address geoStateW true (.ok "OK" [((1 : ℚ), (2 : ℚ))])
        (.exn "down") "Delhi").secondaryTried = false) ∧
    get_lat_long_from_address geoStateW false (.exn "x") (.exn "down") "Delhi" =
      geocodeFallback geoStateW (.exn "down") "Delhi" false ∧
    ((get_lat_long_from_address geoStateW true (.ok "ZERO_RESULTS" [])
        (.ok none) "Delhi").secondaryTried = true ∧
      ((.ok none : SecResp) = .ok none ∨ (.ok none : SecResp) = .ok (some []))) :=
  ⟨(geocode_fallback_chain geoStateW true (.ok "OK" [((1 : ℚ), (2 : ℚ))])
      (.exn "down") "Delhi").2.1 1 2 [] rfl rfl,
    (geocode_fallback_chain geoStateW false (.exn "x") (.exn "down") "Delhi").2.2.1 rfl,
    (geocode_fallback_chain geoStateW true (.ok "ZERO_RESULTS" [])
      (.ok none) "Delhi").2.2.2.2.2.2 "Location not found for Delhi" (by decide)⟩

/-- C4 counterexample: not every core operation catches all internal
failures.  In Resolve Location's secondary block only
`requests.exceptions.RequestException` is handled, so a well-formed HTTP
response whose first geocoding result lacks the `"latitude"` key makes the
`location["latitude"]` lookup raise a `KeyError` that escapes the operation
uncaught. -/
theorem uncaught_keyError_in_geocode_cex :
    (get_lat_long_from_address geoStateW false (.exn "unused")
        (.ok (some [⟨none, none⟩])) "Paris").result = .raise (.keyError "latitude") ∧
    ∀ ret, (get_lat_long_from_address geoStateW false (.exn "unused")
        (.ok (some [⟨none, none⟩])) "Paris").result ≠ .ret ret := by
  refine ⟨rfl, ?_⟩
  intro ret hcontra
  simp [get_lat_long_from_address, geocodeFallback] at hcontra

/-- C4 amended: the forecast tool converts every internal failure
(connection error, insufficient history) at its boundary into a structured
error result and otherwise returns the forecast, and the pipeline steps do
likewise — except Resolve Location, whose only uncaught path is the
secondary-geocoding payload whose first result lacks the latitude or
longitude key (there a KeyError escapes). -/
theorem boundary_error_conversion (fit : List (ℤ × ℚ) → ℕ → ℚ) (period : ℕ)
    (e : String) (rows : List DFRow) (st : ToolState) (key : Bool) (p : PrimResp)
    (s : SecResp) (address : String) (exc : PyExc) :
    (get_demand_forecast fit period (.error e) =
      .errorJson ("Failed to query BigQuery. Error: " ++ e)) ∧
    (rows.length < 14 →
      get_demand_forecast fit period (.ok rows) =
        .errorJson (insufficientMsg rows.length)) ∧
    (14 ≤ rows.length →
      ∃ out, get_demand_forecast fit period (.ok rows) = .forecastJson out) ∧
    ((get_lat_long_from_address st key p s address).result = .raise exc →
      ∃ rec rest, s = .ok (some (rec :: rest)) ∧
        (rec.latitude = none ∨ rec.longitude = none)) := by
  refine ⟨rfl, ?_, ?_, ?_⟩
  · intro h
    simp [get_demand_forecast, DemandForecast.forecast, if_pos h]
  · intro h
    obtain ⟨out, hout⟩ := forecast_ret_of_enough_rows fit period rows h
    exact ⟨out, by simp [get_demand_forecast, hout]⟩
  · intro h
    have hfall : ∀ b, (geocodeFallback st s address b).result = .raise exc →
        ∃ rec rest, s = .ok (some (rec :: rest)) ∧
          (rec.latitude = none ∨ rec.longitude = none) :=
      fun b hb => geocodeFallback_raise st s address b exc hb
    cases key with
    | false => exact hfall false h
    | true =>
      rcases p with pm | ⟨status, results⟩
      · exact hfall true h
      · by_cases hs : status = "OK"
        · rcases results with _ | ⟨⟨la, ln⟩, rest⟩
          · exact hfall true (by simpa [get_lat_long_from_address, hs] using h)
          · exact absurd h (by simp [get_lat_long_from_address, hs])
        · exact hfall true (by simpa [get_lat_long_from_address, hs] using h)

theorem boundary_error_conversion_witness :
    get_demand_forecast fit0 5 (.error "timeout") =
      .errorJson ("Failed to query BigQuery. Error: " ++ "timeout") ∧
    get_demand_forecast fit0 5 (.ok rows13) = .errorJson (insufficientMsg rows13.length) ∧
    (∃ out, get_demand_forecast fit0 5 (.ok rows14) = .forecastJson out) ∧
    (∃ rec rest, (.ok (some [(⟨none, none⟩ : OMGeoRecord)]) : SecResp) =
        .ok (some (rec :: rest)) ∧
      (rec.latitude = none ∨ rec.longitude = none)) :=
  ⟨(boundary_error_conversion fit0 5 "timeout" rows13 geoStateW false (.exn "unused")
      (.ok (some [⟨none, none⟩])) "Paris" (.keyError "latitude")).1,
    (boundary_error_conversion fit0 5 "timeout" rows13 geoStateW false (.exn "unused")
      (.ok (some [⟨none, none⟩])) "Paris" (.keyError "latitude")).2.1 (by decide),
    (boundary_error_conversion fit0 5 "timeout" rows14 geoStateW false (.exn "unused")
      (.ok (some [⟨none, none⟩])) "Paris" (.keyError "latitude")).2.2.1 (by decide),
    (boundary_error_conversion fit0 5 "timeout" rows13 geoStateW false (.exn "unused")
      (.ok (some [⟨none, none⟩])) "Paris" (.keyError "latitude")).2.2.2 rfl⟩

/-- C10: the load step maps every upstream failure (anything raised inside
the weather fetch) and a genuinely empty upstream row set to the very same
error result "Weather API returned no data.", and its only possible
outcomes are success, that message, or the missing-coordinates message — no
DataSourceUnavailable-style kind exists. -/
theorem load_conflates_failure_and_empty (windU windV : ℚ → ℚ → ℚ)
    (st : ToolState) (msg : String) (lat lng : ℚ)
    (hlat : st.latitude = some lat) (hlng : st.longitude = some lng) :
    ((get_weather_forecast_dataframe windU windV st (.exn msg)).1 =
      .error "Weather API returned no data.") ∧
    ((get_weather_forecast_dataframe windU windV st (.ok (some []))).1 =
      .error "Weather API returned no data.") ∧
    ((get_weather_forecast_dataframe windU windV st (.exn msg)).1 =
      (get_weather_forecast_dataframe windU windV st (.ok (some []))).1) ∧
    ((get_weather_forecast_dataframe windU windV st (.ok none)).1 =
      .error "Weather API returned no data.") ∧
    (∀ st' resp,
      (∃ rep, (get_weather_forecast_dataframe windU windV st' resp).1 = .success rep) ∨
      (get_weather_forecast_dataframe windU windV st' resp).1 =
        .error latLongMissingMsg ∨
      (get_weather_forecast_dataframe windU windV st' resp).1 =
        .error "Weather API returned no data.") := by
  have hn : (st.latitude.isNone || st.longitude.isNone) = false := by
    simp [hlat, hlng]
  refine ⟨?_, ?_, ?_, ?_, ?_⟩
  · simp [get_weather_forecast_dataframe, get_open_meteo_forecast, hn]
  · simp [get_weather_forecast_dataframe, get_open_meteo_forecast, hn]
  · simp [get_weather_forecast_dataframe, get_open_meteo_forecast, hn]
  · simp [get_weather_forecast_dataframe, get_open_meteo_forecast, hn]
  · intro st' resp
    by_cases hpre : (st'.latitude.isNone || st'.longitude.isNone) = true
    · right
      left
      simp [get_weather_forecast_dataframe, hpre]
    · have hpre' : ¬ (st'.latitude = none ∨ st'.longitude = none) := by
        simpa [Option.isNone_iff_eq_none] using hpre
      by_cases hdf : (get_open_meteo_forecast windU windV resp).isEmpty
      · right
        right
        simp [get_weather_forecast_dataframe, hpre', hdf]
      · left
        refine ⟨loadReport (st'.latitude.getD 0) (st'.longitude.getD 0)
          (get_open_meteo_forecast windU windV resp).length, ?_⟩
        simp [get_weather_forecast_dataframe, hpre', hdf]

theorem load_conflates_failure_and_empty_witness :
    stW.latitude = some 10 ∧ stW.longitude = some 20 ∧
    ((get_weather_forecast_dataframe (fun _ _ => 0) (fun _ _ => 0) stW
        (.exn "connection refused")).1 = .error "Weather API returned no data.") ∧
    ((get_weather_forecast_dataframe (fun _ _ => 0) (fun _ _ => 0) stW
        (.ok (some []))).1 = .error "Weather API returned no data.") :=
  ⟨rfl, rfl,
    (load_conflates_failure_and_empty (fun _ _ => 0) (fun _ _ => 0) stW
      "connection refused" 10 20 rfl rfl).1,
    (load_conflates_failure_and_empty (fun _ _ => 0) (fun _ _ => 0) stW
      "connection refused" 10 20 rfl rfl).2.1⟩

end SupplyChain
